import Mathlib

/-!
Shallow embedding of the table-driven 3D border/edge rendering engine in
reactos/dll/win32/user32/windows/draw.c (functions IntDrawRectEdge and
IntDrawDiagEdge and the color lookup tables they share), together with
theorems settling the specification claims about it.

Drawing is modelled as a trace of drawing operations (line segments drawn
by a MoveToEx/LineTo pair, rectangle fills, polygon fills), and the two
renderers become pure functions from (rectangle, uType, uFlags) to
(boolean result, resulting caller rectangle, trace).
-/

namespace Draw

/-! Edge-style and border-flag constants.  These are the standard values of
the public Windows API (winuser.h); draw.c uses them through headers that
are outside the provided sources. -/

def BDR_RAISEDOUTER : Nat := 0x0001
def BDR_SUNKENOUTER : Nat := 0x0002
def BDR_RAISEDINNER : Nat := 0x0004
def BDR_SUNKENINNER : Nat := 0x0008
def BDR_OUTER : Nat := 0x0003
def BDR_INNER : Nat := 0x000c

def EDGE_RAISED : Nat := BDR_RAISEDOUTER ||| BDR_RAISEDINNER
def EDGE_SUNKEN : Nat := BDR_SUNKENOUTER ||| BDR_SUNKENINNER

def BF_LEFT : Nat := 0x0001
def BF_TOP : Nat := 0x0002
def BF_RIGHT : Nat := 0x0004
def BF_BOTTOM : Nat := 0x0008
def BF_TOPLEFT : Nat := BF_TOP ||| BF_LEFT
def BF_TOPRIGHT : Nat := BF_TOP ||| BF_RIGHT
def BF_BOTTOMLEFT : Nat := BF_BOTTOM ||| BF_LEFT
def BF_BOTTOMRIGHT : Nat := BF_BOTTOM ||| BF_RIGHT
def BF_RECT : Nat := BF_LEFT ||| BF_TOP ||| BF_RIGHT ||| BF_BOTTOM
def BF_DIAGONAL : Nat := 0x0010
def BF_DIAGONAL_ENDBOTTOMLEFT : Nat := BF_DIAGONAL ||| BF_BOTTOM ||| BF_LEFT
def BF_DIAGONAL_ENDBOTTOMRIGHT : Nat := BF_DIAGONAL ||| BF_BOTTOM ||| BF_RIGHT
def BF_DIAGONAL_ENDTOPRIGHT : Nat := BF_DIAGONAL ||| BF_TOP ||| BF_RIGHT
def BF_DIAGONAL_ENDTOPLEFT : Nat := BF_DIAGONAL ||| BF_TOP ||| BF_LEFT
def BF_MIDDLE : Nat := 0x0800
def BF_SOFT : Nat := 0x1000
def BF_ADJUST : Nat := 0x2000
def BF_FLAT : Nat := 0x4000
def BF_MONO : Nat := 0x8000

/-! System color indices (wingdi.h/winuser.h standard values), as used by
the tables in draw.c. -/

def COLOR_WINDOW : Int := 5
def COLOR_WINDOWFRAME : Int := 6
def COLOR_BTNFACE : Int := 15
def COLOR_BTNSHADOW : Int := 16
def COLOR_BTNHIGHLIGHT : Int := 20
def COLOR_3DDKSHADOW : Int := 21
def COLOR_3DLIGHT : Int := 22

/-! The color lookup tables of draw.c, verbatim.  Entry -1 is the sentinel
meaning that no line of this kind is drawn (the C code keeps NULL_PEN
selected for that line).  Each table has 16 entries and is indexed by
uType masked with BDR_INNER|BDR_OUTER. -/

def LTInnerNormal (i : Nat) : Int :=
  [ -1, -1, -1, -1,
    -1, COLOR_BTNHIGHLIGHT, COLOR_BTNHIGHLIGHT, -1,
    -1, COLOR_3DDKSHADOW, COLOR_3DDKSHADOW, -1,
    -1, -1, -1, -1 ].getD i (-1)

def LTOuterNormal (i : Nat) : Int :=
  [ -1, COLOR_3DLIGHT, COLOR_BTNSHADOW, -1,
    COLOR_BTNHIGHLIGHT, COLOR_3DLIGHT, COLOR_BTNSHADOW, -1,
    COLOR_3DDKSHADOW, COLOR_3DLIGHT, COLOR_BTNSHADOW, -1,
    -1, COLOR_3DLIGHT, COLOR_BTNSHADOW, -1 ].getD i (-1)

def RBInnerNormal (i : Nat) : Int :=
  [ -1, -1, -1, -1,
    -1, COLOR_BTNSHADOW, COLOR_BTNSHADOW, -1,
    -1, COLOR_3DLIGHT, COLOR_3DLIGHT, -1,
    -1, -1, -1, -1 ].getD i (-1)

def RBOuterNormal (i : Nat) : Int :=
  [ -1, COLOR_3DDKSHADOW, COLOR_BTNHIGHLIGHT, -1,
    COLOR_BTNSHADOW, COLOR_3DDKSHADOW, COLOR_BTNHIGHLIGHT, -1,
    COLOR_3DLIGHT, COLOR_3DDKSHADOW, COLOR_BTNHIGHLIGHT, -1,
    -1, COLOR_3DDKSHADOW, COLOR_BTNHIGHLIGHT, -1 ].getD i (-1)

def LTInnerSoft (i : Nat) : Int :=
  [ -1, -1, -1, -1,
    -1, COLOR_3DLIGHT, COLOR_3DLIGHT, -1,
    -1, COLOR_BTNSHADOW, COLOR_BTNSHADOW, -1,
    -1, -1, -1, -1 ].getD i (-1)

def LTOuterSoft (i : Nat) : Int :=
  [ -1, COLOR_BTNHIGHLIGHT, COLOR_3DDKSHADOW, -1,
    COLOR_3DLIGHT, COLOR_BTNHIGHLIGHT, COLOR_3DDKSHADOW, -1,
    COLOR_BTNSHADOW, COLOR_BTNHIGHLIGHT, COLOR_3DDKSHADOW, -1,
    -1, COLOR_BTNHIGHLIGHT, COLOR_3DDKSHADOW, -1 ].getD i (-1)

/-- Mirrors the source define RBInnerSoft = RBInnerNormal (they are the same). -/
def RBInnerSoft : Nat → Int := RBInnerNormal

/-- Mirrors the source define RBOuterSoft = RBOuterNormal (they are the same). -/
def RBOuterSoft : Nat → Int := RBOuterNormal

def LTRBOuterMono (i : Nat) : Int :=
  [ -1, COLOR_WINDOWFRAME, COLOR_WINDOWFRAME, COLOR_WINDOWFRAME,
    COLOR_WINDOW, COLOR_WINDOWFRAME, COLOR_WINDOWFRAME, COLOR_WINDOWFRAME,
    COLOR_WINDOW, COLOR_WINDOWFRAME, COLOR_WINDOWFRAME, COLOR_WINDOWFRAME,
    COLOR_WINDOW, COLOR_WINDOWFRAME, COLOR_WINDOWFRAME, COLOR_WINDOWFRAME ].getD i (-1)

def LTRBInnerMono (i : Nat) : Int :=
  [ -1, -1, -1, -1,
    -1, COLOR_WINDOW, COLOR_WINDOW, COLOR_WINDOW,
    -1, COLOR_WINDOW, COLOR_WINDOW, COLOR_WINDOW,
    -1, COLOR_WINDOW, COLOR_WINDOW, COLOR_WINDOW ].getD i (-1)

def LTRBOuterFlat (i : Nat) : Int :=
  [ -1, COLOR_BTNSHADOW, COLOR_BTNSHADOW, COLOR_BTNSHADOW,
    COLOR_BTNFACE, COLOR_BTNSHADOW, COLOR_BTNSHADOW, COLOR_BTNSHADOW,
    COLOR_BTNFACE, COLOR_BTNSHADOW, COLOR_BTNSHADOW, COLOR_BTNSHADOW,
    COLOR_BTNFACE, COLOR_BTNSHADOW, COLOR_BTNSHADOW, COLOR_BTNSHADOW ].getD i (-1)

def LTRBInnerFlat (i : Nat) : Int :=
  [ -1, -1, -1, -1,
    -1, COLOR_BTNFACE, COLOR_BTNFACE, COLOR_BTNFACE,
    -1, COLOR_BTNFACE, COLOR_BTNFACE, COLOR_BTNFACE,
    -1, COLOR_BTNFACE, COLOR_BTNFACE, COLOR_BTNFACE ].getD i (-1)

/-! Data model: rectangles (right/bottom exclusive), line segments (the
MoveToEx point and the LineTo point of a drawn line), and draw
operations.  A segment drawn while the sentinel color -1 is active
corresponds to the NULL_PEN case in the C code: the call is made but no
pixel is painted. -/

structure Rect where
  left : Int
  top : Int
  right : Int
  bottom : Int
deriving DecidableEq, Repr

structure Segment where
  x0 : Int
  y0 : Int
  x1 : Int
  y1 : Int
deriving DecidableEq, Repr

inductive DrawOp where
  | fill (r : Rect) (color : Int)
  | seg (s : Segment) (color : Int)
  | poly (p0 p1 p2 p3 : Int × Int) (color : Int)
deriving DecidableEq, Repr

def DrawOp.isSeg : DrawOp → Bool
  | .seg _ _ => true
  | _ => false

def DrawOp.isFill : DrawOp → Bool
  | .fill _ _ => true
  | _ => false

/-! Rectangular edge renderer IntDrawRectEdge, decomposed into its
constituents. -/

/-- The four quadrant color slots of IntDrawRectEdge: left-top inner,
left-top outer, right-bottom inner, right-bottom outer. -/
structure QuadColors where
  lti : Int
  lto : Int
  rbi : Int
  rbo : Int
deriving DecidableEq, Repr

/-- Validity result of IntDrawRectEdge: retval = NOT
(((uType and BDR_INNER) == BDR_INNER or (uType and BDR_OUTER) == BDR_OUTER)
 and no BF_FLAT/BF_MONO flag). -/
def rectEdgeRetval (uType uFlags : Nat) : Bool :=
  !((decide (uType &&& BDR_INNER = BDR_INNER) || decide (uType &&& BDR_OUTER = BDR_OUTER))
    && decide (uFlags &&& (BF_FLAT ||| BF_MONO) = 0))

/-- Color determination of IntDrawRectEdge at a table index ("Determine
the colors of the edges"): Mono, then Flat (with the win98 inner-color
forcing to COLOR_BTNFACE when the table entry is not -1), then Soft, then
normal. -/
def rectEdgeColorsAt (i uFlags : Nat) : QuadColors :=
  if uFlags &&& BF_MONO ≠ 0 then
    ⟨LTRBInnerMono i, LTRBOuterMono i, LTRBInnerMono i, LTRBOuterMono i⟩
  else if uFlags &&& BF_FLAT ≠ 0 then
    ⟨(if LTRBInnerFlat i ≠ -1 then COLOR_BTNFACE else LTRBInnerFlat i),
     LTRBOuterFlat i,
     (if LTRBInnerFlat i ≠ -1 then COLOR_BTNFACE else LTRBInnerFlat i),
     LTRBOuterFlat i⟩
  else if uFlags &&& BF_SOFT ≠ 0 then
    ⟨LTInnerSoft i, LTOuterSoft i, RBInnerSoft i, RBOuterSoft i⟩
  else
    ⟨LTInnerNormal i, LTOuterNormal i, RBInnerNormal i, RBOuterNormal i⟩

/-- Quadrant colors of IntDrawRectEdge: every table is consulted at uType
masked with BDR_INNER|BDR_OUTER. -/
def rectEdgeColors (uType uFlags : Nat) : QuadColors :=
  rectEdgeColorsAt (uType &&& (BDR_INNER ||| BDR_OUTER)) uFlags

/-- Corner adjustment scalar LTpenplus: 1 when both BF_TOP and BF_LEFT are
selected ((uFlags and BF_TOPLEFT) == BF_TOPLEFT). -/
def LTpenplus (uFlags : Nat) : Int :=
  if uFlags &&& BF_TOPLEFT = BF_TOPLEFT then 1 else 0

/-- Corner adjustment scalar RTpenplus. -/
def RTpenplus (uFlags : Nat) : Int :=
  if uFlags &&& BF_TOPRIGHT = BF_TOPRIGHT then 1 else 0

/-- Corner adjustment scalar LBpenplus. -/
def LBpenplus (uFlags : Nat) : Int :=
  if uFlags &&& BF_BOTTOMLEFT = BF_BOTTOMLEFT then 1 else 0

/-- Corner adjustment scalar RBpenplus. -/
def RBpenplus (uFlags : Nat) : Int :=
  if uFlags &&& BF_BOTTOMRIGHT = BF_BOTTOMRIGHT then 1 else 0

/-- Outer top edge line of IntDrawRectEdge. -/
def outerTopSeg (r : Rect) : Segment := ⟨r.left, r.top, r.right, r.top⟩

/-- Outer left edge line of IntDrawRectEdge. -/
def outerLeftSeg (r : Rect) : Segment := ⟨r.left, r.top, r.left, r.bottom⟩

/-- Outer bottom edge line of IntDrawRectEdge. -/
def outerBottomSeg (r : Rect) : Segment := ⟨r.left, r.bottom - 1, r.right, r.bottom - 1⟩

/-- Outer right edge line of IntDrawRectEdge. -/
def outerRightSeg (r : Rect) : Segment := ⟨r.right - 1, r.top, r.right - 1, r.bottom⟩

/-- Inner top edge line of IntDrawRectEdge, shortened at its ends by the
LTpenplus/RTpenplus corner scalars. -/
def innerTopSeg (r : Rect) (uFlags : Nat) : Segment :=
  ⟨r.left + LTpenplus uFlags, r.top + 1, r.right - RTpenplus uFlags, r.top + 1⟩

/-- Inner left edge line of IntDrawRectEdge, shortened at its ends by the
LTpenplus/LBpenplus corner scalars. -/
def innerLeftSeg (r : Rect) (uFlags : Nat) : Segment :=
  ⟨r.left + 1, r.top + LTpenplus uFlags, r.left + 1, r.bottom - LBpenplus uFlags⟩

/-- Inner bottom edge line of IntDrawRectEdge. -/
def innerBottomSeg (r : Rect) (uFlags : Nat) : Segment :=
  ⟨r.left + LBpenplus uFlags, r.bottom - 2, r.right - RBpenplus uFlags, r.bottom - 2⟩

/-- Inner right edge line of IntDrawRectEdge. -/
def innerRightSeg (r : Rect) (uFlags : Nat) : Segment :=
  ⟨r.right - 2, r.top + RTpenplus uFlags, r.right - 2, r.bottom - RBpenplus uFlags⟩

/-- Border thickness used for shrinking: computed from the monochrome
tables regardless of the active palette. -/
def monoAdd (uType : Nat) : Int :=
  (if LTRBInnerMono (uType &&& (BDR_INNER ||| BDR_OUTER)) ≠ -1 then 1 else 0)
  + (if LTRBOuterMono (uType &&& (BDR_INNER ||| BDR_OUTER)) ≠ -1 then 1 else 0)

/-- Shrink each side selected in uFlags by the given amount, as done on
InnerRect by both renderers. -/
def shrinkRect (r : Rect) (uFlags : Nat) (add : Int) : Rect :=
  { left := if uFlags &&& BF_LEFT ≠ 0 then r.left + add else r.left,
    top := if uFlags &&& BF_TOP ≠ 0 then r.top + add else r.top,
    right := if uFlags &&& BF_RIGHT ≠ 0 then r.right - add else r.right,
    bottom := if uFlags &&& BF_BOTTOM ≠ 0 then r.bottom - add else r.bottom }

/-- Interior fill of IntDrawRectEdge: performed on the original bounds
when BF_MIDDLE is set and the combination is valid, with COLOR_WINDOW
under BF_MONO and COLOR_BTNFACE otherwise.  In the C code this FillRect
precedes every MoveToEx/LineTo of the call. -/
def rectEdgeFillOps (rc : Rect) (uType uFlags : Nat) : List DrawOp :=
  if uFlags &&& BF_MIDDLE ≠ 0 ∧ rectEdgeRetval uType uFlags = true then
    [DrawOp.fill rc (if uFlags &&& BF_MONO ≠ 0 then COLOR_WINDOW else COLOR_BTNFACE)]
  else []

/-- Outer edge lines of IntDrawRectEdge, in source order (top, left with
the left-top outer color; bottom, right with the right-bottom outer
color). -/
def rectEdgeOuterOps (rc : Rect) (uType uFlags : Nat) : List DrawOp :=
  (if uFlags &&& BF_TOP ≠ 0 then
     [DrawOp.seg (outerTopSeg rc) (rectEdgeColors uType uFlags).lto] else [])
  ++ (if uFlags &&& BF_LEFT ≠ 0 then
     [DrawOp.seg (outerLeftSeg rc) (rectEdgeColors uType uFlags).lto] else [])
  ++ (if uFlags &&& BF_BOTTOM ≠ 0 then
     [DrawOp.seg (outerBottomSeg rc) (rectEdgeColors uType uFlags).rbo] else [])
  ++ (if uFlags &&& BF_RIGHT ≠ 0 then
     [DrawOp.seg (outerRightSeg rc) (rectEdgeColors uType uFlags).rbo] else [])

/-- Inner edge lines of IntDrawRectEdge, in source order. -/
def rectEdgeInnerOps (rc : Rect) (uType uFlags : Nat) : List DrawOp :=
  (if uFlags &&& BF_TOP ≠ 0 then
     [DrawOp.seg (innerTopSeg rc uFlags) (rectEdgeColors uType uFlags).lti] else [])
  ++ (if uFlags &&& BF_LEFT ≠ 0 then
     [DrawOp.seg (innerLeftSeg rc uFlags) (rectEdgeColors uType uFlags).lti] else [])
  ++ (if uFlags &&& BF_BOTTOM ≠ 0 then
     [DrawOp.seg (innerBottomSeg rc uFlags) (rectEdgeColors uType uFlags).rbi] else [])
  ++ (if uFlags &&& BF_RIGHT ≠ 0 then
     [DrawOp.seg (innerRightSeg rc uFlags) (rectEdgeColors uType uFlags).rbi] else [])

/-- Full drawing trace of IntDrawRectEdge. -/
def rectEdgeOps (rc : Rect) (uType uFlags : Nat) : List DrawOp :=
  rectEdgeFillOps rc uType uFlags
  ++ rectEdgeOuterOps rc uType uFlags
  ++ rectEdgeInnerOps rc uType uFlags

/-- Rectangle handed back to the caller: shrunk via the mono-table
thickness when BF_ADJUST is set, unchanged otherwise. -/
def rectEdgeResultRect (rc : Rect) (uType uFlags : Nat) : Rect :=
  if uFlags &&& BF_ADJUST ≠ 0 then shrinkRect rc uFlags (monoAdd uType) else rc

/-- Embedding of IntDrawRectEdge: boolean result, caller rectangle on
return, and the trace of drawing operations in the order the C code
performs them. -/
def IntDrawRectEdge (rc : Rect) (uType uFlags : Nat) : Bool × Rect × List DrawOp :=
  (rectEdgeRetval uType uFlags,
   rectEdgeResultRect rc uType uFlags,
   rectEdgeOps rc uType uFlags)

/-! Diagonal edge renderer IntDrawDiagEdge. -/

/-- Validity result of IntDrawDiagEdge; the C code computes it with the
same expression as IntDrawRectEdge. -/
def diagEdgeRetval (uType uFlags : Nat) : Bool :=
  !((decide (uType &&& BDR_INNER = BDR_INNER) || decide (uType &&& BDR_OUTER = BDR_OUTER))
    && decide (uFlags &&& (BF_FLAT ||| BF_MONO) = 0))

/-- SmallDiam: the smaller of the rectangle width and height. -/
def diagSmallDiam (rc : Rect) : Int :=
  if rc.right - rc.left > rc.bottom - rc.top then rc.bottom - rc.top
  else rc.right - rc.left

/-- Edge colors of IntDrawDiagEdge as (InnerI, OuterI): Mono, then Flat
(without any inner-color forcing here), then Soft, then normal; the
Soft/normal palettes pick the right-bottom tables when BF_BOTTOM is among
the flags and the left-top tables otherwise. -/
def diagEdgeColors (uType uFlags : Nat) : Int × Int :=
  let i := uType &&& (BDR_INNER ||| BDR_OUTER)
  if uFlags &&& BF_MONO ≠ 0 then
    (LTRBInnerMono i, LTRBOuterMono i)
  else if uFlags &&& BF_FLAT ≠ 0 then
    (LTRBInnerFlat i, LTRBOuterFlat i)
  else if uFlags &&& BF_SOFT ≠ 0 then
    if uFlags &&& BF_BOTTOM ≠ 0 then (RBInnerSoft i, RBOuterSoft i)
    else (LTInnerSoft i, LTOuterSoft i)
  else
    if uFlags &&& BF_BOTTOM ≠ 0 then (RBInnerNormal i, RBOuterNormal i)
    else (LTInnerNormal i, LTOuterNormal i)

/-- Start and end points of the outer diagonal (spx, spy, epx, epy). -/
structure DiagCoords where
  spx : Int
  spy : Int
  epx : Int
  epy : Int
deriving DecidableEq, Repr

/-- The switch on (uFlags and BF_RECT) deriving the diagonal endpoint
coordinates.  The three groups transcribe the three case groups of the C
switch; together the listed cases cover all 16 values of the masked
flags. -/
def diagEndpoints (rc : Rect) (uFlags : Nat) (smallDiam : Int) : DiagCoords :=
  if uFlags &&& BF_RECT = 0 ∨ uFlags &&& BF_RECT = BF_LEFT
     ∨ uFlags &&& BF_RECT = BF_BOTTOM ∨ uFlags &&& BF_RECT = BF_BOTTOMLEFT then
    -- Left bottom endpoint: epx = left-1, spx = epx+SmallDiam,
    -- epy = bottom, spy = epy-SmallDiam
    ⟨rc.left - 1 + smallDiam, rc.bottom - smallDiam, rc.left - 1, rc.bottom⟩
  else if uFlags &&& BF_RECT = BF_TOPLEFT ∨ uFlags &&& BF_RECT = BF_BOTTOMRIGHT then
    -- Left top endpoint: epx = left-1, spx = epx+SmallDiam,
    -- epy = top-1, spy = epy+SmallDiam
    ⟨rc.left - 1 + smallDiam, rc.top - 1 + smallDiam, rc.left - 1, rc.top - 1⟩
  else
    -- Right top endpoint: spx = left, epx = spx+SmallDiam,
    -- spy = bottom-1, epy = spy-SmallDiam
    ⟨rc.left, rc.bottom - 1, rc.left + smallDiam, rc.bottom - 1 - smallDiam⟩

/-- The switch on (uFlags and (BF_RECT or BF_DIAGONAL)) producing the
inner diagonal line and the four polygon points used by the BF_MIDDLE
fill.  When no case matches (BF_DIAGONAL absent from uFlags) the C code
draws no inner line and leaves Points uninitialized; that situation is
modelled as none. -/
def diagInner (rc : Rect) (uFlags : Nat) (add : Int) (c : DiagCoords) :
    Option (Segment × ((Int × Int) × (Int × Int) × (Int × Int) × (Int × Int))) :=
  if uFlags &&& (BF_RECT ||| BF_DIAGONAL) = BF_DIAGONAL_ENDBOTTOMLEFT ∨ uFlags &&& (BF_RECT ||| BF_DIAGONAL) = (BF_DIAGONAL ||| BF_BOTTOM)
     ∨ uFlags &&& (BF_RECT ||| BF_DIAGONAL) = BF_DIAGONAL ∨ uFlags &&& (BF_RECT ||| BF_DIAGONAL) = (BF_DIAGONAL ||| BF_LEFT) then
    some (⟨c.spx - 1, c.spy, c.epx, c.epy - 1⟩,
      ((c.spx - add, c.spy), (rc.left, rc.top),
       (c.epx + 1, c.epy - 1 - add), (c.epx + 1, c.epy - 1 - add)))
  else if uFlags &&& (BF_RECT ||| BF_DIAGONAL) = BF_DIAGONAL_ENDBOTTOMRIGHT then
    some (⟨c.spx - 1, c.spy, c.epx, c.epy + 1⟩,
      ((c.spx - add, c.spy), (rc.left, rc.bottom - 1),
       (c.epx + 1, c.epy + 1 + add), (c.epx + 1, c.epy + 1 + add)))
  else if uFlags &&& (BF_RECT ||| BF_DIAGONAL) = (BF_DIAGONAL ||| BF_BOTTOM ||| BF_RIGHT ||| BF_TOP)
     ∨ uFlags &&& (BF_RECT ||| BF_DIAGONAL) = (BF_DIAGONAL ||| BF_BOTTOM ||| BF_RIGHT ||| BF_TOP ||| BF_LEFT)
     ∨ uFlags &&& (BF_RECT ||| BF_DIAGONAL) = BF_DIAGONAL_ENDTOPRIGHT
     ∨ uFlags &&& (BF_RECT ||| BF_DIAGONAL) = (BF_DIAGONAL ||| BF_RIGHT ||| BF_TOP ||| BF_LEFT) then
    some (⟨c.spx + 1, c.spy, c.epx, c.epy + 1⟩,
      ((c.epx - 1, c.epy + 1 + add), (rc.right - 1, rc.top + add),
       (rc.right - 1, rc.bottom - 1), (c.spx + add, c.spy)))
  else if uFlags &&& (BF_RECT ||| BF_DIAGONAL) = BF_DIAGONAL_ENDTOPLEFT then
    some (⟨c.spx, c.spy - 1, c.epx + 1, c.epy⟩,
      ((c.epx + 1 + add, c.epy + 1), (rc.right - 1, rc.top),
       (rc.right - 1, rc.bottom - 1 - add), (c.spx, c.spy - add)))
  else if uFlags &&& (BF_RECT ||| BF_DIAGONAL) = (BF_DIAGONAL ||| BF_TOP) ∨ uFlags &&& (BF_RECT ||| BF_DIAGONAL) = (BF_DIAGONAL ||| BF_BOTTOM ||| BF_TOP)
     ∨ uFlags &&& (BF_RECT ||| BF_DIAGONAL) = (BF_DIAGONAL ||| BF_BOTTOM ||| BF_TOP ||| BF_LEFT) then
    some (⟨c.spx + 1, c.spy - 1, c.epx, c.epy⟩,
      ((c.epx - 1, c.epy + 1), (rc.right - 1, rc.top),
       (rc.right - 1, rc.bottom - 1 - add), (c.spx + add, c.spy - add)))
  else if uFlags &&& (BF_RECT ||| BF_DIAGONAL) = (BF_DIAGONAL ||| BF_RIGHT) ∨ uFlags &&& (BF_RECT ||| BF_DIAGONAL) = (BF_DIAGONAL ||| BF_RIGHT ||| BF_LEFT)
     ∨ uFlags &&& (BF_RECT ||| BF_DIAGONAL) = (BF_DIAGONAL ||| BF_RIGHT ||| BF_LEFT ||| BF_BOTTOM) then
    some (⟨c.spx, c.spy, c.epx - 1, c.epy + 1⟩,
      ((c.spx, c.spy), (rc.left, rc.top + add),
       (c.epx - 1 - add, c.epy + 1 + add), (c.epx - 1 - add, c.epy + 1 + add)))
  else none

/-- Drawing trace of IntDrawDiagEdge: the outer diagonal, then the inner
diagonal, then the BF_MIDDLE polygon fill when the combination is
valid. -/
def diagEdgeOps (rc : Rect) (uType uFlags : Nat) : List DrawOp :=
  (DrawOp.seg ⟨(diagEndpoints rc uFlags (diagSmallDiam rc)).spx,
               (diagEndpoints rc uFlags (diagSmallDiam rc)).spy,
               (diagEndpoints rc uFlags (diagSmallDiam rc)).epx,
               (diagEndpoints rc uFlags (diagSmallDiam rc)).epy⟩
     (diagEdgeColors uType uFlags).2)
  :: ((match diagInner rc uFlags (monoAdd uType) (diagEndpoints rc uFlags (diagSmallDiam rc)) with
       | some (s, _) => [DrawOp.seg s (diagEdgeColors uType uFlags).1]
       | none => [])
  ++ (if uFlags &&& BF_MIDDLE ≠ 0 ∧ diagEdgeRetval uType uFlags = true then
        match diagInner rc uFlags (monoAdd uType) (diagEndpoints rc uFlags (diagSmallDiam rc)) with
        | some (_, (p0, p1, p2, p3)) =>
          [DrawOp.poly p0 p1 p2 p3
            (if uFlags &&& BF_MONO ≠ 0 then COLOR_WINDOW else COLOR_BTNFACE)]
        | none => []
      else []))

/-- Embedding of IntDrawDiagEdge: boolean result, caller rectangle on
return (shrunk per selected side by the mono-table thickness when
BF_ADJUST is set), and the drawing trace. -/
def IntDrawDiagEdge (rc : Rect) (uType uFlags : Nat) : Bool × Rect × List DrawOp :=
  (diagEdgeRetval uType uFlags,
   if uFlags &&& BF_ADJUST ≠ 0 then shrinkRect rc uFlags (monoAdd uType) else rc,
   diagEdgeOps rc uType uFlags)

/-- Per-axis pixel step direction of a line: the sign of the coordinate
delta. -/
def segStep (d : Int) : Int := if d > 0 then 1 else if d < 0 then -1 else 0

/-- Lattice points of a MoveToEx/LineTo pair along an axis-aligned or
45-degree segment, stepping one pixel at a time from the start point;
both endpoints are listed (index 0 is the MoveToEx point, the last index
is the LineTo point, which GDI itself does not paint). -/
def segPoints (s : Segment) : List (Int × Int) :=
  (List.range (max (s.x1 - s.x0).natAbs (s.y1 - s.y0).natAbs + 1)).map
    (fun j : Nat => (s.x0 + (j : Int) * segStep (s.x1 - s.x0),
                     s.y0 + (j : Int) * segStep (s.y1 - s.y0)))

/-! Helper lemmas. -/

/-- Masking with a sub-mask of a mask factors through the mask. -/
theorem and_mask_mask (t m mp : Nat) (h : m &&& mp = mp) :
    (t &&& m) &&& mp = t &&& mp := by
  rw [Nat.and_assoc, h]

/-- Every non-sentinel entry of the flat inner table is COLOR_BTNFACE. -/
theorem LTRBInnerFlat_ne_sentinel (i : Nat) (hi : LTRBInnerFlat i ≠ -1) :
    LTRBInnerFlat i = COLOR_BTNFACE := by
  by_cases h16 : i < 16
  · interval_cases i <;> revert hi <;> decide
  · exfalso
    apply hi
    unfold LTRBInnerFlat
    apply List.getD_eq_default
    simpa using Nat.le_of_not_lt h16

/-! Encoding of the style-code classification used by the specification:
a style code has an inner bevel when some BDR_INNER bit is set and an
outer bevel when some BDR_OUTER bit is set (EDGE_RAISED and EDGE_SUNKEN
are the "both bevels" codes in this reading). -/

/-- Modelled from the spec: the "has inner bevel" flag of the spec
style-code encoding, read on the uType argument. -/
def specHasInnerBevel (uType : Nat) : Bool := uType &&& BDR_INNER != 0

/-- Modelled from the spec: the "has outer bevel" flag of the spec
style-code encoding, read on the uType argument. -/
def specHasOuterBevel (uType : Nat) : Bool := uType &&& BDR_OUTER != 0

/-- Modelled from the spec: a single-bevel style code, with exactly one
of the inner/outer bevel flags set. -/
def specSingleBevel (uType : Nat) : Bool :=
  (specHasInnerBevel uType && !specHasOuterBevel uType)
  || (!specHasInnerBevel uType && specHasOuterBevel uType)

/-! Claim C1. -/

/-- C1 counterexample: the style code BDR_SUNKENOUTER = 2 is a single
bevel (outer-only in the source encoding; also single-bevel under the
literal spec encoding with bit1 = inner), the modifier set 0 contains
neither BF_FLAT nor BF_MONO, yet IntDrawRectEdge returns true, not
false. -/
theorem C1_counterexample :
    specSingleBevel BDR_SUNKENOUTER = true
    ∧ (0 : Nat) &&& (BF_FLAT ||| BF_MONO) = 0
    ∧ (IntDrawRectEdge ⟨0, 0, 10, 10⟩ BDR_SUNKENOUTER 0).1 = true := by
  decide

/-- C1 amended: without BF_FLAT/BF_MONO, IntDrawRectEdge returns false
exactly for the style codes that set both bits of the inner pair
(uType and BDR_INNER = BDR_INNER) or both bits of the outer pair
(uType and BDR_OUTER = BDR_OUTER); in particular the genuine single-bevel
codes 1, 2, 4, 8 return true. -/
theorem C1_amended (rc : Rect) (uType uFlags : Nat)
    (h : uFlags &&& (BF_FLAT ||| BF_MONO) = 0) :
    (IntDrawRectEdge rc uType uFlags).1 = false
      ↔ (uType &&& BDR_INNER = BDR_INNER ∨ uType &&& BDR_OUTER = BDR_OUTER) := by
  show rectEdgeRetval uType uFlags = false ↔ _
  unfold rectEdgeRetval
  rw [h]
  simp
  tauto

/-- C1 amended, witnessed at the fully-set inner pair BDR_INNER = 12 with
no modifiers: the function returns false there. -/
theorem C1_amended_witness :
    (0 : Nat) &&& (BF_FLAT ||| BF_MONO) = 0
    ∧ ((IntDrawRectEdge ⟨0, 0, 10, 10⟩ BDR_INNER 0).1 = false
        ↔ (BDR_INNER &&& BDR_INNER = BDR_INNER ∨ BDR_INNER &&& BDR_OUTER = BDR_OUTER)) :=
  ⟨by decide, C1_amended ⟨0, 0, 10, 10⟩ BDR_INNER 0 (by decide)⟩

/-! Claim C2. -/

/-- C2: on rectangle (0,0,10,10) with a both-bevels style code
(EDGE_RAISED or EDGE_SUNKEN), all four sides, normal palette and no other
modifiers, IntDrawRectEdge returns true; with BF_ADJUST additionally set
it still returns true and the caller rectangle becomes (2,2,8,8), each
side shrunk by 2. -/
theorem C2_concrete_scenario :
    (IntDrawRectEdge ⟨0, 0, 10, 10⟩ EDGE_RAISED BF_RECT).1 = true
    ∧ (IntDrawRectEdge ⟨0, 0, 10, 10⟩ EDGE_SUNKEN BF_RECT).1 = true
    ∧ (IntDrawRectEdge ⟨0, 0, 10, 10⟩ EDGE_RAISED (BF_RECT ||| BF_ADJUST)).1 = true
    ∧ (IntDrawRectEdge ⟨0, 0, 10, 10⟩ EDGE_RAISED (BF_RECT ||| BF_ADJUST)).2.1
        = ⟨2, 2, 8, 8⟩
    ∧ (IntDrawRectEdge ⟨0, 0, 10, 10⟩ EDGE_SUNKEN (BF_RECT ||| BF_ADJUST)).2.1
        = ⟨2, 2, 8, 8⟩ := by
  decide

/-! Claim C3. -/

/-- C3 counterexample: style codes 0 and 4 agree on bits 0 and 1 yet
resolve different quadrant colors (and produce different draw calls),
because the lookup mask BDR_INNER|BDR_OUTER covers four bits, not
two. -/
theorem C3_counterexample :
    (0 : Nat) &&& 3 = (4 : Nat) &&& 3
    ∧ rectEdgeColors 0 0 ≠ rectEdgeColors 4 0
    ∧ IntDrawRectEdge ⟨0, 0, 10, 10⟩ 0 BF_RECT
        ≠ IntDrawRectEdge ⟨0, 0, 10, 10⟩ 4 BF_RECT := by
  decide

/-- C3 amended: color resolution (and the whole call result) is a pure
function of the style code masked with BDR_INNER|BDR_OUTER, the low four
bits, together with the modifier flags: two style codes agreeing on that
mask give identical results; resolution is total and never fails. -/
theorem C3_amended (rc : Rect) (t1 t2 uFlags : Nat)
    (h : t1 &&& (BDR_INNER ||| BDR_OUTER) = t2 &&& (BDR_INNER ||| BDR_OUTER)) :
    rectEdgeColors t1 uFlags = rectEdgeColors t2 uFlags
    ∧ IntDrawRectEdge rc t1 uFlags = IntDrawRectEdge rc t2 uFlags := by
  have h1 : t1 &&& BDR_INNER = t2 &&& BDR_INNER := by
    rw [← and_mask_mask t1 (BDR_INNER ||| BDR_OUTER) BDR_INNER (by decide),
        ← and_mask_mask t2 (BDR_INNER ||| BDR_OUTER) BDR_INNER (by decide), h]
  have h2 : t1 &&& BDR_OUTER = t2 &&& BDR_OUTER := by
    rw [← and_mask_mask t1 (BDR_INNER ||| BDR_OUTER) BDR_OUTER (by decide),
        ← and_mask_mask t2 (BDR_INNER ||| BDR_OUTER) BDR_OUTER (by decide), h]
  have hc : rectEdgeColors t1 uFlags = rectEdgeColors t2 uFlags := by
    unfold rectEdgeColors
    rw [h]
  have hr : rectEdgeRetval t1 uFlags = rectEdgeRetval t2 uFlags := by
    unfold rectEdgeRetval
    rw [h1, h2]
  have ha : monoAdd t1 = monoAdd t2 := by
    unfold monoAdd
    rw [h]
  refine ⟨hc, ?_⟩
  unfold IntDrawRectEdge rectEdgeOps rectEdgeFillOps rectEdgeOuterOps rectEdgeInnerOps
    rectEdgeResultRect
  simp only [hc, hr, ha]

/-- C3 amended, witnessed at style codes 21 and 5 (equal low four bits). -/
theorem C3_amended_witness :
    (21 : Nat) &&& (BDR_INNER ||| BDR_OUTER) = (5 : Nat) &&& (BDR_INNER ||| BDR_OUTER)
    ∧ (rectEdgeColors 21 BF_RECT = rectEdgeColors 5 BF_RECT
       ∧ IntDrawRectEdge ⟨0, 0, 10, 10⟩ 21 BF_RECT
           = IntDrawRectEdge ⟨0, 0, 10, 10⟩ 5 BF_RECT) :=
  ⟨by decide, C3_amended ⟨0, 0, 10, 10⟩ 21 5 BF_RECT (by decide)⟩

/-! Claim C4. -/

/-- C4: for every rectangle, style code and modifier set, the boolean
result of IntDrawDiagEdge equals the boolean result of IntDrawRectEdge;
both compute the same validity rule, so one is false exactly when the
other is. -/
theorem C4_same_validity_rule (rc : Rect) (uType uFlags : Nat) :
    (IntDrawDiagEdge rc uType uFlags).1 = (IntDrawRectEdge rc uType uFlags).1 := by
  rfl

/-! Claim C9. -/

/-- C9: when BF_ADJUST is absent, neither IntDrawRectEdge nor
IntDrawDiagEdge changes the caller rectangle; it is mutated only under
BF_ADJUST. -/
theorem C9_frame_condition (rc : Rect) (uType uFlags : Nat)
    (h : uFlags &&& BF_ADJUST = 0) :
    (IntDrawRectEdge rc uType uFlags).2.1 = rc
    ∧ (IntDrawDiagEdge rc uType uFlags).2.1 = rc := by
  constructor
  · show rectEdgeResultRect rc uType uFlags = rc
    unfold rectEdgeResultRect
    exact if_neg (fun hn => hn h)
  · show (if uFlags &&& BF_ADJUST ≠ 0 then shrinkRect rc uFlags (monoAdd uType) else rc) = rc
    exact if_neg (fun hn => hn h)

/-- C9, witnessed on a concrete call with all sides and BF_MIDDLE but no
BF_ADJUST. -/
theorem C9_frame_condition_witness :
    (BF_RECT ||| BF_MIDDLE) &&& BF_ADJUST = 0
    ∧ ((IntDrawRectEdge ⟨0, 0, 10, 10⟩ EDGE_RAISED (BF_RECT ||| BF_MIDDLE)).2.1
         = ⟨0, 0, 10, 10⟩
       ∧ (IntDrawDiagEdge ⟨0, 0, 10, 10⟩ EDGE_RAISED (BF_RECT ||| BF_MIDDLE)).2.1
         = ⟨0, 0, 10, 10⟩) :=
  ⟨by decide, C9_frame_condition ⟨0, 0, 10, 10⟩ EDGE_RAISED (BF_RECT ||| BF_MIDDLE) (by decide)⟩

/-! Claim C5. -/

/-- Every operation among the outer and inner edge line blocks of
IntDrawRectEdge is a segment draw. -/
theorem rectEdge_line_ops_isSeg (rc : Rect) (uType uFlags : Nat) :
    ∀ op ∈ rectEdgeOuterOps rc uType uFlags ++ rectEdgeInnerOps rc uType uFlags,
      op.isSeg = true := by
  intro op hop
  unfold rectEdgeOuterOps rectEdgeInnerOps at hop
  simp only [List.mem_append] at hop
  rcases hop with ((((h | h) | h) | h) | (((h | h) | h) | h)) <;>
    (split at h <;> simp_all [DrawOp.isSeg])

/-- C5 counterexample: with style code BDR_INNER = 12 and
BF_MIDDLE|BF_RECT (the Middle modifier is set, but the combination is
invalid), IntDrawRectEdge performs no interior fill at all. -/
theorem C5_counterexample :
    (BF_MIDDLE ||| BF_RECT) &&& BF_MIDDLE ≠ 0
    ∧ ((IntDrawRectEdge ⟨0, 0, 10, 10⟩ BDR_INNER (BF_MIDDLE ||| BF_RECT)).2.2.all
        (fun op => !op.isFill)) = true := by
  decide

/-- C5 amended: whenever BF_MIDDLE is set and the call returns true, the
trace starts with a fill of the original (not yet shrunk) rectangle in
COLOR_BTNFACE (COLOR_WINDOW under BF_MONO), and everything after that
fill is a bevel line: the fill precedes every line of the call. -/
theorem C5_amended (rc : Rect) (uType uFlags : Nat)
    (hmid : uFlags &&& BF_MIDDLE ≠ 0)
    (hret : (IntDrawRectEdge rc uType uFlags).1 = true) :
    (IntDrawRectEdge rc uType uFlags).2.2.head?
      = some (DrawOp.fill rc
          (if uFlags &&& BF_MONO ≠ 0 then COLOR_WINDOW else COLOR_BTNFACE))
    ∧ ∀ op ∈ (IntDrawRectEdge rc uType uFlags).2.2.tail, op.isSeg = true := by
  have hret2 : rectEdgeRetval uType uFlags = true := hret
  have hfill : rectEdgeFillOps rc uType uFlags
      = [DrawOp.fill rc
          (if uFlags &&& BF_MONO ≠ 0 then COLOR_WINDOW else COLOR_BTNFACE)] := by
    unfold rectEdgeFillOps
    exact if_pos ⟨hmid, hret2⟩
  have htrace : (IntDrawRectEdge rc uType uFlags).2.2
      = DrawOp.fill rc (if uFlags &&& BF_MONO ≠ 0 then COLOR_WINDOW else COLOR_BTNFACE)
        :: (rectEdgeOuterOps rc uType uFlags ++ rectEdgeInnerOps rc uType uFlags) := by
    show rectEdgeOps rc uType uFlags = _
    unfold rectEdgeOps
    rw [hfill]
    rfl
  rw [htrace]
  exact ⟨rfl, rectEdge_line_ops_isSeg rc uType uFlags⟩

/-- C5 amended, witnessed on EDGE_RAISED with all four sides and
BF_MIDDLE. -/
theorem C5_amended_witness :
    (BF_RECT ||| BF_MIDDLE) &&& BF_MIDDLE ≠ 0
    ∧ (IntDrawRectEdge ⟨0, 0, 10, 10⟩ EDGE_RAISED (BF_RECT ||| BF_MIDDLE)).1 = true
    ∧ ((IntDrawRectEdge ⟨0, 0, 10, 10⟩ EDGE_RAISED (BF_RECT ||| BF_MIDDLE)).2.2.head?
        = some (DrawOp.fill ⟨0, 0, 10, 10⟩
            (if (BF_RECT ||| BF_MIDDLE) &&& BF_MONO ≠ 0 then COLOR_WINDOW else COLOR_BTNFACE))
       ∧ ∀ op ∈ (IntDrawRectEdge ⟨0, 0, 10, 10⟩ EDGE_RAISED (BF_RECT ||| BF_MIDDLE)).2.2.tail,
           op.isSeg = true) :=
  ⟨by decide, by decide,
   C5_amended ⟨0, 0, 10, 10⟩ EDGE_RAISED (BF_RECT ||| BF_MIDDLE) (by decide) (by decide)⟩

/-! Claim C6. -/

/-- C6: with BF_ADJUST among the flags, shrinking is state-independent:
calling IntDrawRectEdge on the rectangle a second time, with the same
style, sides and modifiers, moves every side by the same amount as the
first call did (the amount depends only on the style code, not on the
rectangle). -/
theorem C6_adjust_state_independent (rc : Rect) (uType uFlags : Nat)
    (h : uFlags &&& BF_ADJUST ≠ 0) :
    ((IntDrawRectEdge rc uType uFlags).2.1.left - rc.left
      = (IntDrawRectEdge (IntDrawRectEdge rc uType uFlags).2.1 uType uFlags).2.1.left
        - (IntDrawRectEdge rc uType uFlags).2.1.left)
    ∧ ((IntDrawRectEdge rc uType uFlags).2.1.top - rc.top
      = (IntDrawRectEdge (IntDrawRectEdge rc uType uFlags).2.1 uType uFlags).2.1.top
        - (IntDrawRectEdge rc uType uFlags).2.1.top)
    ∧ (rc.right - (IntDrawRectEdge rc uType uFlags).2.1.right
      = (IntDrawRectEdge rc uType uFlags).2.1.right
        - (IntDrawRectEdge (IntDrawRectEdge rc uType uFlags).2.1 uType uFlags).2.1.right)
    ∧ (rc.bottom - (IntDrawRectEdge rc uType uFlags).2.1.bottom
      = (IntDrawRectEdge rc uType uFlags).2.1.bottom
        - (IntDrawRectEdge (IntDrawRectEdge rc uType uFlags).2.1 uType uFlags).2.1.bottom) := by
  have key : ∀ r : Rect,
      (IntDrawRectEdge r uType uFlags).2.1 = shrinkRect r uFlags (monoAdd uType) := by
    intro r
    show rectEdgeResultRect r uType uFlags = _
    unfold rectEdgeResultRect
    exact if_pos h
  simp only [key, shrinkRect]
  refine ⟨?_, ?_, ?_, ?_⟩ <;> split_ifs <;> ring

/-- C6, witnessed on EDGE_RAISED with all four sides and BF_ADJUST on
(0,0,10,10): the first call shrinks to (2,2,8,8), the second to
(4,4,6,6). -/
theorem C6_adjust_state_independent_witness :
    (BF_RECT ||| BF_ADJUST) &&& BF_ADJUST ≠ 0
    ∧ ((IntDrawRectEdge ⟨0, 0, 10, 10⟩ EDGE_RAISED (BF_RECT ||| BF_ADJUST)).2.1.left - 0
      = (IntDrawRectEdge (IntDrawRectEdge ⟨0, 0, 10, 10⟩ EDGE_RAISED (BF_RECT ||| BF_ADJUST)).2.1
          EDGE_RAISED (BF_RECT ||| BF_ADJUST)).2.1.left
        - (IntDrawRectEdge ⟨0, 0, 10, 10⟩ EDGE_RAISED (BF_RECT ||| BF_ADJUST)).2.1.left) :=
  ⟨by decide,
   (C6_adjust_state_independent ⟨0, 0, 10, 10⟩ EDGE_RAISED (BF_RECT ||| BF_ADJUST) (by decide)).1⟩

/-! Claim C7. -/

/-- C7: in a call selecting the top and left sides (which is exactly what
activates the top-left corner condition (uFlags and BF_TOPLEFT) ==
BF_TOPLEFT), the inner top and inner left lines are drawn, and the inner
top line starts one pixel further right, and the inner left line one
pixel further down, than in any call where the top-left corner condition
does not hold. -/
theorem C7_corner_adjustment (rc : Rect) (uType f1 f2 f3 : Nat)
    (h1 : f1 &&& BF_TOPLEFT = BF_TOPLEFT)
    (h2 : f2 &&& BF_TOPLEFT ≠ BF_TOPLEFT)
    (h3 : f3 &&& BF_TOPLEFT ≠ BF_TOPLEFT) :
    DrawOp.seg (innerTopSeg rc f1) (rectEdgeColors uType f1).lti
        ∈ (IntDrawRectEdge rc uType f1).2.2
    ∧ DrawOp.seg (innerLeftSeg rc f1) (rectEdgeColors uType f1).lti
        ∈ (IntDrawRectEdge rc uType f1).2.2
    ∧ (innerTopSeg rc f1).x0 = (innerTopSeg rc f2).x0 + 1
    ∧ (innerLeftSeg rc f1).y0 = (innerLeftSeg rc f3).y0 + 1 := by
  have hTop : f1 &&& BF_TOP ≠ 0 := by
    have hmm := and_mask_mask f1 BF_TOPLEFT BF_TOP (by decide)
    rw [h1] at hmm
    rw [← hmm]
    decide
  have hLeft : f1 &&& BF_LEFT ≠ 0 := by
    have hmm := and_mask_mask f1 BF_TOPLEFT BF_LEFT (by decide)
    rw [h1] at hmm
    rw [← hmm]
    decide
  refine ⟨?_, ?_, ?_, ?_⟩
  · show _ ∈ rectEdgeOps rc uType f1
    unfold rectEdgeOps rectEdgeInnerOps
    simp [hTop]
  · show _ ∈ rectEdgeOps rc uType f1
    unfold rectEdgeOps rectEdgeInnerOps
    simp [hLeft]
  · show rc.left + LTpenplus f1 = rc.left + LTpenplus f2 + 1
    unfold LTpenplus
    rw [if_pos h1, if_neg h2]
    ring
  · show rc.top + LTpenplus f1 = rc.top + LTpenplus f3 + 1
    unfold LTpenplus
    rw [if_pos h1, if_neg h3]
    ring

/-- C7, witnessed with the corner call using all four sides and the two
comparison calls using only the top side and only the left side. -/
theorem C7_corner_adjustment_witness :
    BF_RECT &&& BF_TOPLEFT = BF_TOPLEFT
    ∧ BF_TOP &&& BF_TOPLEFT ≠ BF_TOPLEFT
    ∧ BF_LEFT &&& BF_TOPLEFT ≠ BF_TOPLEFT
    ∧ (DrawOp.seg (innerTopSeg ⟨0, 0, 10, 10⟩ BF_RECT) (rectEdgeColors EDGE_RAISED BF_RECT).lti
        ∈ (IntDrawRectEdge ⟨0, 0, 10, 10⟩ EDGE_RAISED BF_RECT).2.2
       ∧ DrawOp.seg (innerLeftSeg ⟨0, 0, 10, 10⟩ BF_RECT) (rectEdgeColors EDGE_RAISED BF_RECT).lti
        ∈ (IntDrawRectEdge ⟨0, 0, 10, 10⟩ EDGE_RAISED BF_RECT).2.2
       ∧ (innerTopSeg ⟨0, 0, 10, 10⟩ BF_RECT).x0 = (innerTopSeg ⟨0, 0, 10, 10⟩ BF_TOP).x0 + 1
       ∧ (innerLeftSeg ⟨0, 0, 10, 10⟩ BF_RECT).y0 = (innerLeftSeg ⟨0, 0, 10, 10⟩ BF_LEFT).y0 + 1) :=
  ⟨by decide, by decide, by decide,
   C7_corner_adjustment ⟨0, 0, 10, 10⟩ EDGE_RAISED BF_RECT BF_TOP BF_LEFT
     (by decide) (by decide) (by decide)⟩

/-! Claim C10. -/

/-- Modelled from the spec sentence the claim compares against: the
colors given by the flat tables alone, without the inner-color
override. -/
def flatTableColors (uType : Nat) : QuadColors :=
  ⟨LTRBInnerFlat (uType &&& (BDR_INNER ||| BDR_OUTER)),
   LTRBOuterFlat (uType &&& (BDR_INNER ||| BDR_OUTER)),
   LTRBInnerFlat (uType &&& (BDR_INNER ||| BDR_OUTER)),
   LTRBOuterFlat (uType &&& (BDR_INNER ||| BDR_OUTER))⟩

/-- C10: the BF_FLAT inner-color override is an identity transformation:
every non-sentinel entry of the flat inner table already equals
COLOR_BTNFACE, so under BF_FLAT (the branch taken when BF_MONO is
absent) the resolved quadrant colors are exactly the plain flat-table
colors. -/
theorem C10_flat_override_identity :
    (∀ i : Nat, LTRBInnerFlat i ≠ -1 → LTRBInnerFlat i = COLOR_BTNFACE)
    ∧ ∀ uType uFlags : Nat, uFlags &&& BF_MONO = 0 → uFlags &&& BF_FLAT ≠ 0 →
        rectEdgeColors uType uFlags = flatTableColors uType := by
  refine ⟨LTRBInnerFlat_ne_sentinel, ?_⟩
  intro uType uFlags hm hf
  unfold rectEdgeColors rectEdgeColorsAt flatTableColors
  rw [if_neg (fun hn => hn hm), if_pos hf]
  by_cases hs : LTRBInnerFlat (uType &&& (BDR_INNER ||| BDR_OUTER)) ≠ -1
  · rw [if_pos hs, LTRBInnerFlat_ne_sentinel _ hs]
  · rw [if_neg hs]

/-- C10, witnessed at table index 5 and a pure BF_FLAT call on
EDGE_RAISED. -/
theorem C10_flat_override_identity_witness :
    (LTRBInnerFlat 5 ≠ -1 → LTRBInnerFlat 5 = COLOR_BTNFACE)
    ∧ BF_FLAT &&& BF_MONO = 0
    ∧ BF_FLAT &&& BF_FLAT ≠ 0
    ∧ rectEdgeColors EDGE_RAISED BF_FLAT = flatTableColors EDGE_RAISED :=
  ⟨C10_flat_override_identity.1 5, by decide, by decide,
   C10_flat_override_identity.2 EDGE_RAISED BF_FLAT (by decide) (by decide)⟩

/-! Claim C8. -/

/-- Point list of a down-left 45-degree segment from (x+n, y-n) to
(x, y): the points (x+n-j, y-n+j) for j = 0..n. -/
theorem segPoints_antidiag (x y : Int) (n : Nat) :
    segPoints ⟨x + n, y - n, x, y⟩
      = (List.range (n + 1)).map (fun j : Nat => (x + n - (j : Int), y - n + (j : Int))) := by
  unfold segPoints
  dsimp only
  have h1 : x - (x + n) = -(n : Int) := by ring
  have h2 : y - (y - n) = (n : Int) := by ring
  rw [h1, h2]
  simp only [Int.natAbs_neg, Int.natAbs_ofNat, max_self]
  apply List.map_congr_left
  intro j hj
  simp only [List.mem_range] at hj
  by_cases hn : n = 0
  · subst hn
    have hj0 : j = 0 := by omega
    subst hj0
    simp [segStep]
  · have hn1 : 1 ≤ n := Nat.one_le_iff_ne_zero.mpr hn
    have hs1 : segStep (-(n : Int)) = -1 := by
      unfold segStep
      rw [if_neg (by omega), if_pos (by omega)]
    have hs2 : segStep ((n : Int)) = 1 := by
      unfold segStep
      rw [if_pos (by omega)]
    rw [hs1, hs2]
    simp only [Prod.mk.injEq]
    constructor <;> ring

/-- A draw operation avoids a point when it is not a segment or its
segment's point list does not contain the point. -/
def opAvoidsPoint (p : Int × Int) : DrawOp → Bool
  | .seg s _ => !(segPoints s).contains p
  | _ => true

/-- C8 counterexample: on the square (0,0,4,4) (side N = 4) with
orientation ends-bottom-left, the claimed outer-diagonal endpoint
(left+N, bottom-N) = (4,0) lies on no drawn segment, even counting both
segment endpoints inclusively; the outer line actually drawn is the
MoveToEx/LineTo pair (3,0) to (-1,4). -/
theorem C8_counterexample :
    ((IntDrawDiagEdge ⟨0, 0, 4, 4⟩ EDGE_RAISED BF_DIAGONAL_ENDBOTTOMLEFT).2.2.all
        (opAvoidsPoint (4, 0))) = true
    ∧ (IntDrawDiagEdge ⟨0, 0, 4, 4⟩ EDGE_RAISED BF_DIAGONAL_ENDBOTTOMLEFT).2.2.head?
        = some (DrawOp.seg ⟨3, 0, -1, 4⟩ COLOR_3DDKSHADOW) := by
  decide

/-- C8 amended: on a square rectangle of side N (N at least 1) with
orientation ends-bottom-left, the trace starts with the outer diagonal
drawn from (left+N-1, bottom-N) to (left-1, bottom) and the inner
diagonal drawn from (left+N-2, bottom-N) to (left-1, bottom-1), in the
outer and inner colors; every point of the inner diagonal lies exactly
one pixel left of a point of the outer diagonal, i.e. one pixel toward
the rectangle's interior. -/
theorem C8_amended (rc : Rect) (N : Nat) (uType uFlags : Nat)
    (hN : 1 ≤ N)
    (hW : rc.right - rc.left = (N : Int))
    (hH : rc.bottom - rc.top = (N : Int))
    (hF : uFlags &&& (BF_RECT ||| BF_DIAGONAL) = BF_DIAGONAL_ENDBOTTOMLEFT) :
    (IntDrawDiagEdge rc uType uFlags).2.2.take 2
      = [DrawOp.seg ⟨rc.left - 1 + N, rc.bottom - N, rc.left - 1, rc.bottom⟩
           (diagEdgeColors uType uFlags).2,
         DrawOp.seg ⟨rc.left - 1 + N - 1, rc.bottom - N, rc.left - 1, rc.bottom - 1⟩
           (diagEdgeColors uType uFlags).1]
    ∧ ∀ p ∈ segPoints ⟨rc.left - 1 + N - 1, rc.bottom - N, rc.left - 1, rc.bottom - 1⟩,
        (p.1 + 1, p.2) ∈ segPoints ⟨rc.left - 1 + N, rc.bottom - N, rc.left - 1, rc.bottom⟩ := by
  have hRect : uFlags &&& BF_RECT = BF_BOTTOMLEFT := by
    have hmm := and_mask_mask uFlags (BF_RECT ||| BF_DIAGONAL) BF_RECT (by decide)
    rw [hF] at hmm
    rw [← hmm]
    decide
  have hsd : diagSmallDiam rc = (N : Int) := by
    unfold diagSmallDiam
    rw [hW, hH]
    simp
  have hc : diagEndpoints rc uFlags (diagSmallDiam rc)
      = ⟨rc.left - 1 + N, rc.bottom - N, rc.left - 1, rc.bottom⟩ := by
    unfold diagEndpoints
    rw [hsd]
    simp only [hRect]
    rw [if_pos (by decide)]
  obtain ⟨pts, hinner⟩ : ∃ pts,
      diagInner rc uFlags (monoAdd uType) (diagEndpoints rc uFlags (diagSmallDiam rc))
        = some (⟨rc.left - 1 + N - 1, rc.bottom - N, rc.left - 1, rc.bottom - 1⟩, pts) := by
    rw [hc]
    unfold diagInner
    simp only [hF]
    rw [if_pos (by decide)]
    exact ⟨_, rfl⟩
  constructor
  · show (diagEdgeOps rc uType uFlags).take 2 = _
    unfold diagEdgeOps
    rw [hinner, hc]
    rfl
  · have hcast : ((N - 1 : Nat) : Int) = (N : Int) - 1 := by omega
    have hseg : (⟨rc.left - 1 + N - 1, rc.bottom - N, rc.left - 1, rc.bottom - 1⟩ : Segment)
        = ⟨(rc.left - 1) + (N - 1 : Nat), (rc.bottom - 1) - (N - 1 : Nat),
           rc.left - 1, rc.bottom - 1⟩ := by
      simp only [Segment.mk.injEq, and_true]
      constructor <;> omega
    rw [hseg, segPoints_antidiag (rc.left - 1) (rc.bottom - 1) (N - 1),
        segPoints_antidiag (rc.left - 1) rc.bottom N]
    intro p hp
    simp only [List.mem_map, List.mem_range] at hp ⊢
    obtain ⟨j, hj, rfl⟩ := hp
    refine ⟨j, by omega, ?_⟩
    simp only [Prod.mk.injEq]
    constructor <;> omega

/-- C8 amended, witnessed on the square (0,0,4,4) with EDGE_RAISED and
the pure ends-bottom-left orientation flags. -/
theorem C8_amended_witness :
    1 ≤ 4
    ∧ ((4 : Int) - 0 = ((4 : Nat) : Int))
    ∧ ((4 : Int) - 0 = ((4 : Nat) : Int))
    ∧ BF_DIAGONAL_ENDBOTTOMLEFT &&& (BF_RECT ||| BF_DIAGONAL) = BF_DIAGONAL_ENDBOTTOMLEFT
    ∧ ((IntDrawDiagEdge ⟨0, 0, 4, 4⟩ EDGE_RAISED BF_DIAGONAL_ENDBOTTOMLEFT).2.2.take 2
        = [DrawOp.seg ⟨0 - 1 + (4 : Nat), 4 - (4 : Nat), 0 - 1, 4⟩
             (diagEdgeColors EDGE_RAISED BF_DIAGONAL_ENDBOTTOMLEFT).2,
           DrawOp.seg ⟨0 - 1 + (4 : Nat) - 1, 4 - (4 : Nat), 0 - 1, 4 - 1⟩
             (diagEdgeColors EDGE_RAISED BF_DIAGONAL_ENDBOTTOMLEFT).1]
       ∧ ∀ p ∈ segPoints ⟨0 - 1 + (4 : Nat) - 1, 4 - (4 : Nat), 0 - 1, 4 - 1⟩,
           (p.1 + 1, p.2) ∈ segPoints ⟨0 - 1 + (4 : Nat), 4 - (4 : Nat), 0 - 1, 4⟩) :=
  ⟨by decide, by norm_num, by norm_num, by decide,
   C8_amended ⟨0, 0, 4, 4⟩ 4 EDGE_RAISED BF_DIAGONAL_ENDBOTTOMLEFT
     (by decide) (by norm_num) (by norm_num) (by decide)⟩

end Draw
